import Mathlib

/-!
Verification of the BOXMEOUT_STELLA settlement and trading engine.

The repository's backend services are shallowly embedded as pure Lean
functions over explicit state.  Database repositories become association
lists / option-valued lookup results, external blockchain calls become
explicit inputs, and monetary values use exact rational arithmetic (the
source uses fixed-point decimals).  Fallible service methods return
`Except`; methods whose error paths may still write (audit records) return
an outcome record that always carries the final state.
-/

namespace BoxMeOut

/-- Market lifecycle status (prisma `MarketStatus`). -/
inductive MarketStatus where
  | OPEN
  | CLOSED
  | RESOLVED
  | CANCELLED
  | DISPUTED
deriving DecidableEq, Repr

/-- Display name used in status-specific error messages. -/
def MarketStatus.name : MarketStatus → String
  | .OPEN => "OPEN"
  | .CLOSED => "CLOSED"
  | .RESOLVED => "RESOLVED"
  | .CANCELLED => "CANCELLED"
  | .DISPUTED => "DISPUTED"

/-- Prediction lifecycle status (prisma `PredictionStatus`). -/
inductive PredictionStatus where
  | COMMITTED
  | REVEALED
  | SETTLED
deriving DecidableEq, Repr

/-- Modelled from the spec: `createCommitmentHash` of `utils/crypto`
(implementation missing from the repository snapshot; only its mocked uses
in the test suite are present).  The deterministic one-way hash over
(userId, marketId, outcome, salt) is idealized as an injective encoding of
the hashed tuple, which is the property the commit-reveal protocol relies
on. -/
structure CommitmentHash where
  userId : String
  marketId : String
  outcome : Int
  salt : String
deriving DecidableEq, Repr

/-- Modelled from the spec: the commitment hash construction. -/
def createCommitmentHash (userId marketId : String) (outcome : Int)
    (salt : String) : CommitmentHash :=
  ⟨userId, marketId, outcome, salt⟩

/-- Modelled from the spec: symmetric at-rest encryption of the salt.
Only the round-trip property `decrypt (encrypt s) = s` is relevant, so the
cipher is modelled as the identity on the stored ciphertext. -/
def decrypt (ciphertext : String) : String := ciphertext

/-- A prediction row (prisma `Prediction`). -/
structure Prediction where
  id : String
  userId : String
  marketId : String
  commitmentHash : CommitmentHash
  encryptedSalt : Option String
  saltIv : Option String
  predictedOutcome : Option Int
  amountUsdc : ℚ
  status : PredictionStatus
  isWinner : Bool
  winningsClaimed : Bool
  pnlUsd : ℚ
deriving DecidableEq, Repr

/-- A market row (prisma `Market`).  `closingAt` and the current clock are
integer timestamps. -/
structure Market where
  id : String
  status : MarketStatus
  closingAt : Int
  winningOutcome : Option Int
  resolutionSource : Option String
  volume : ℚ
deriving DecidableEq, Repr

/-! ## PredictionService.claimWinnings (C1)

Modelled from the spec: `PredictionService.claimWinnings` (the service
implementation is missing from the repository snapshot; only its unit
tests are present).  State: the `findById` result for the prediction and
the owner's USDC balance. -/

structure ClaimState where
  prediction : Option Prediction
  balance : ℚ
deriving DecidableEq, Repr

structure ClaimOutcome where
  result : Except String ℚ
  state : ClaimState
deriving Repr

/-- Modelled from the spec: `PredictionService.claimWinnings`.  Guards in
the order exercised by the unit tests; on success the prediction's
`winningsClaimed` flips to true and the balance is credited by `pnlUsd`. -/
def claimWinnings (callerId : String) (st : ClaimState) : ClaimOutcome :=
  match st.prediction with
  | none => ⟨.error "Prediction not found", st⟩
  | some p =>
    if p.userId ≠ callerId then ⟨.error "Unauthorized", st⟩
    else if p.status ≠ .SETTLED then ⟨.error "Prediction not settled", st⟩
    else if p.isWinner = false then ⟨.error "Prediction did not win", st⟩
    else if p.winningsClaimed then ⟨.error "Winnings already claimed", st⟩
    else if p.pnlUsd = 0 then ⟨.error "No winnings to claim", st⟩
    else
      ⟨.ok p.pnlUsd,
        ⟨some { p with winningsClaimed := true }, st.balance + p.pnlUsd⟩⟩

/-- C1: `claimWinnings` fails with "Prediction not found" when the
prediction does not exist, "Unauthorized" when the caller is not the
owner, "Prediction not settled" when status ≠ SETTLED, "Prediction did
not win" when `isWinner` is false, "Winnings already claimed" when
`winningsClaimed` is already true, and "No winnings to claim" when
`pnlUsd = 0`; otherwise it succeeds, sets `winningsClaimed := true`,
credits the owner's balance by exactly `pnlUsd`, and returns `pnlUsd`;
after a successful claim every further claim fails "Winnings already
claimed" with the balance unchanged, so the payout is credited exactly
once. -/
theorem claimWinnings_spec (callerId : String) (p : Prediction) (bal : ℚ) :
    (claimWinnings callerId ⟨none, bal⟩).result = .error "Prediction not found"
    ∧ (p.userId ≠ callerId →
        (claimWinnings callerId ⟨some p, bal⟩).result = .error "Unauthorized")
    ∧ (p.userId = callerId → p.status ≠ .SETTLED →
        (claimWinnings callerId ⟨some p, bal⟩).result
          = .error "Prediction not settled")
    ∧ (p.userId = callerId → p.status = .SETTLED → p.isWinner = false →
        (claimWinnings callerId ⟨some p, bal⟩).result
          = .error "Prediction did not win")
    ∧ (p.userId = callerId → p.status = .SETTLED → p.isWinner = true →
        p.winningsClaimed = true →
        (claimWinnings callerId ⟨some p, bal⟩).result
          = .error "Winnings already claimed")
    ∧ (p.userId = callerId → p.status = .SETTLED → p.isWinner = true →
        p.winningsClaimed = false → p.pnlUsd = 0 →
        (claimWinnings callerId ⟨some p, bal⟩).result
          = .error "No winnings to claim")
    ∧ (p.userId = callerId → p.status = .SETTLED → p.isWinner = true →
        p.winningsClaimed = false → p.pnlUsd ≠ 0 →
        claimWinnings callerId ⟨some p, bal⟩
          = ⟨.ok p.pnlUsd,
              ⟨some { p with winningsClaimed := true }, bal + p.pnlUsd⟩⟩
        ∧ (claimWinnings callerId ((claimWinnings callerId ⟨some p, bal⟩).state)).result
            = .error "Winnings already claimed"
        ∧ (claimWinnings callerId ((claimWinnings callerId ⟨some p, bal⟩).state)).state.balance
            = bal + p.pnlUsd) := by
  refine ⟨rfl, ?_, ?_, ?_, ?_, ?_, ?_⟩ <;>
    intro h1 <;> simp only [claimWinnings, h1, ne_eq, not_true_eq_false,
      if_false, reduceIte]
  · simp [h1]
  · intro h2
    simp [h2]
  · intro h2 h3
    simp [h2, h3]
  · intro h2 h3 h4
    simp [h2, h3, h4]
  · intro h2 h3 h4 h5
    simp [h2, h3, h4, h5]
  · intro h2 h3 h4 h5
    simp [h2, h3, h4, h5]

/-- C1 witness: Scenario 4 — a SETTLED winning prediction with
`pnlUsd = 180` claimed by its owner at balance 400 yields winnings 180,
balance 580, `winningsClaimed = true`, and a second claim fails. -/
theorem claimWinnings_spec_witness :
    (claimWinnings "user-1"
        ⟨some ⟨"pred-1", "user-1", "market-1",
          createCommitmentHash "user-1" "market-1" 1 "salt",
          some "salt", some "iv", some 1, 100, .SETTLED, true, false, 180⟩,
          400⟩).result = .ok 180
    ∧ (claimWinnings "user-1"
        ⟨some ⟨"pred-1", "user-1", "market-1",
          createCommitmentHash "user-1" "market-1" 1 "salt",
          some "salt", some "iv", some 1, 100, .SETTLED, true, false, 180⟩,
          400⟩).state.balance = 580
    ∧ (claimWinnings "user-1"
        ((claimWinnings "user-1"
          ⟨some ⟨"pred-1", "user-1", "market-1",
            createCommitmentHash "user-1" "market-1" 1 "salt",
            some "salt", some "iv", some 1, 100, .SETTLED, true, false, 180⟩,
            400⟩).state)).result = .error "Winnings already claimed" := by
  have h := (claimWinnings_spec "user-1"
    ⟨"pred-1", "user-1", "market-1",
      createCommitmentHash "user-1" "market-1" 1 "salt",
      some "salt", some "iv", some 1, 100, .SETTLED, true, false, 180⟩
    400).2.2.2.2.2.2 rfl rfl rfl rfl (by norm_num)
  exact ⟨by rw [h.1], by rw [h.1]; norm_num, h.2.1⟩

/-! ## MarketService.resolveMarket (C4)

Modelled from the spec: `MarketService.resolveMarket` (the service
implementation is missing from the repository snapshot; only its unit
tests are present).  The repository `findById` result and the current
clock are explicit inputs. -/

/-- Modelled from the spec: `MarketService.resolveMarket`.  Legal exactly
when the market is CLOSED, or OPEN with `closingAt` already reached; on
success the market transitions to RESOLVED, stamping `winningOutcome` and
`resolutionSource`. -/
def resolveMarket (market : Option Market) (winningOutcome : Int)
    (source : String) (now : Int) : Except String Market :=
  match market with
  | none => .error "Market not found"
  | some m =>
    if winningOutcome ≠ 0 ∧ winningOutcome ≠ 1 then
      .error "Winning outcome must be 0 or 1"
    else
      match m.status with
      | .RESOLVED => .error "Market cannot be resolved in RESOLVED status"
      | .CANCELLED => .error "Market cannot be resolved in CANCELLED status"
      | .DISPUTED => .error "Market cannot be resolved in DISPUTED status"
      | .OPEN =>
        if now < m.closingAt then
          .error "Market is still open and has not reached closing time"
        else
          .ok { m with status := .RESOLVED,
                       winningOutcome := some winningOutcome,
                       resolutionSource := some source }
      | .CLOSED =>
        .ok { m with status := .RESOLVED,
                     winningOutcome := some winningOutcome,
                     resolutionSource := some source }

/-- C4: `resolveMarket` succeeds exactly when the market is CLOSED, or
OPEN with the clock at or past `closingAt`; it fails with a
status-specific state error for RESOLVED/CANCELLED/DISPUTED markets,
fails "Market is still open and has not reached closing time" for an OPEN
market whose deadline is in the future, rejects outcomes outside {0,1},
and on success transitions the market to RESOLVED recording the given
outcome and resolution source. -/
theorem resolveMarket_spec (m : Market) (o : Int) (source : String)
    (now : Int) :
    ((∃ r, resolveMarket (some m) o source now = .ok r) ↔
      ((o = 0 ∨ o = 1) ∧
        (m.status = .CLOSED ∨ (m.status = .OPEN ∧ m.closingAt ≤ now))))
    ∧ (o ≠ 0 → o ≠ 1 →
        resolveMarket (some m) o source now
          = .error "Winning outcome must be 0 or 1")
    ∧ ((o = 0 ∨ o = 1) → m.status = .RESOLVED ∨ m.status = .CANCELLED ∨
          m.status = .DISPUTED →
        resolveMarket (some m) o source now
          = .error ("Market cannot be resolved in " ++ m.status.name
              ++ " status"))
    ∧ ((o = 0 ∨ o = 1) → m.status = .OPEN → now < m.closingAt →
        resolveMarket (some m) o source now
          = .error "Market is still open and has not reached closing time")
    ∧ ((o = 0 ∨ o = 1) →
          m.status = .CLOSED ∨ (m.status = .OPEN ∧ m.closingAt ≤ now) →
        resolveMarket (some m) o source now
          = .ok { m with status := .RESOLVED,
                         winningOutcome := some o,
                         resolutionSource := some source }) := by
  have ho : ∀ h : o = 0 ∨ o = 1, ¬ (o ≠ 0 ∧ o ≠ 1) := by
    rintro (rfl | rfl) ⟨h0, h1⟩ <;> simp at h0 h1
  have hsucc : (o = 0 ∨ o = 1) →
      (m.status = .CLOSED ∨ (m.status = .OPEN ∧ m.closingAt ≤ now)) →
      resolveMarket (some m) o source now
        = .ok { m with status := .RESOLVED,
                       winningOutcome := some o,
                       resolutionSource := some source } := by
    intro hv hst
    have hv' := ho hv
    rcases hst with hst | ⟨hst, hle⟩
    · simp [resolveMarket, hv', hst]
    · simp [resolveMarket, hv', hst, not_lt.mpr hle]
  refine ⟨?_, ?_, ?_, ?_, hsucc⟩
  · constructor
    · rintro ⟨r, hr⟩
      by_cases hv : o ≠ 0 ∧ o ≠ 1
      · simp [resolveMarket, hv] at hr
      · refine ⟨by omega, ?_⟩
        cases hst : m.status
        · by_cases hlt : now < m.closingAt
          · simp [resolveMarket, hv, hst, hlt] at hr
          · exact Or.inr ⟨rfl, by omega⟩
        · exact Or.inl rfl
        · simp [resolveMarket, hv, hst] at hr
        · simp [resolveMarket, hv, hst] at hr
        · simp [resolveMarket, hv, hst] at hr
    · rintro ⟨hv, hst⟩
      exact ⟨_, hsucc hv hst⟩
  · intro h0 h1
    simp [resolveMarket, h0, h1]
  · intro hv hst
    have hv' := ho hv
    rcases hst with hst | hst | hst <;>
      simp [resolveMarket, hv', hst, MarketStatus.name]
  · intro hv hst hlt
    have hv' := ho hv
    simp [resolveMarket, hv', hst, hlt]

/-- C4 witness: Scenario 5 — an OPEN market past its deadline resolves to
RESOLVED with the given outcome and source, and the same market with a
future deadline fails "Market is still open and has not reached closing
time"; a RESOLVED market fails with the status-specific message. -/
theorem resolveMarket_spec_witness :
    resolveMarket
        (some ⟨"market-1", .OPEN, 100, none, none, 0⟩) 1 "source" 150
      = .ok ⟨"market-1", .RESOLVED, 100, some 1, some "source", 0⟩
    ∧ resolveMarket
        (some ⟨"market-1", .OPEN, 200, none, none, 0⟩) 1 "source" 150
      = .error "Market is still open and has not reached closing time"
    ∧ resolveMarket
        (some ⟨"market-1", .RESOLVED, 100, some 0, none, 0⟩) 1 "source" 150
      = .error "Market cannot be resolved in RESOLVED status" := by
  refine ⟨?_, ?_, ?_⟩
  · exact (resolveMarket_spec ⟨"market-1", .OPEN, 100, none, none, 0⟩ 1
      "source" 150).2.2.2.2 (Or.inr rfl) (Or.inr ⟨rfl, by norm_num⟩)
  · exact (resolveMarket_spec ⟨"market-1", .OPEN, 200, none, none, 0⟩ 1
      "source" 150).2.2.2.1 (Or.inr rfl) rfl (by norm_num)
  · exact (resolveMarket_spec ⟨"market-1", .RESOLVED, 100, some 0, none, 0⟩ 1
      "source" 150).2.2.1 (Or.inr rfl) (Or.inl rfl)

/-! ## PredictionService.commitPrediction (C5)

Modelled from the spec: `PredictionService.commitPrediction` (the service
implementation is missing from the repository snapshot; only its unit
tests are present).  State: the market (findById result), the table of
existing predictions, and the committing user's USDC balance. -/

structure CommitState where
  market : Option Market
  predictions : List Prediction
  balance : ℚ
deriving DecidableEq, Repr

structure CommitOutcome where
  result : Except String Prediction
  state : CommitState
deriving Repr

/-- Repository lookup `findByUserAndMarket`. -/
def findByUserAndMarket (preds : List Prediction) (userId marketId : String) :
    Option Prediction :=
  preds.find? (fun p => p.userId == userId && p.marketId == marketId)

/-- Modelled from the spec: `PredictionService.commitPrediction`.  Guards
in the order exercised by the unit tests; on success the salt-bound
commitment hash is stored, the stake is escrowed from the balance, and
the market volume grows by the stake. -/
def commitPrediction (userId marketId : String) (outcome : Int) (amount : ℚ)
    (salt : String) (now : Int) (st : CommitState) : CommitOutcome :=
  match st.market with
  | none => ⟨.error "Market not found", st⟩
  | some m =>
    if m.status ≠ .OPEN then
      ⟨.error "Market is not open for predictions", st⟩
    else if m.closingAt ≤ now then
      ⟨.error "Market has closed", st⟩
    else if (findByUserAndMarket st.predictions userId marketId).isSome then
      ⟨.error "User already has a prediction for this market", st⟩
    else if amount ≤ 0 then
      ⟨.error "Amount must be greater than 0", st⟩
    else if outcome ≠ 0 ∧ outcome ≠ 1 then
      ⟨.error "Predicted outcome must be 0 (NO) or 1 (YES)", st⟩
    else if st.balance < amount then
      ⟨.error "Insufficient balance", st⟩
    else
      let newPred : Prediction :=
        { id := userId ++ ":" ++ marketId
          userId := userId
          marketId := marketId
          commitmentHash := createCommitmentHash userId marketId outcome salt
          encryptedSalt := some salt
          saltIv := some "iv"
          predictedOutcome := none
          amountUsdc := amount
          status := .COMMITTED
          isWinner := false
          winningsClaimed := false
          pnlUsd := 0 }
      ⟨.ok newPred,
        ⟨some { m with volume := m.volume + amount },
          newPred :: st.predictions,
          st.balance - amount⟩⟩

/-- C5: with an OPEN market whose deadline lies ahead, a first commit of
amount `a` on balance `b` with `0 < a ≤ b` succeeds, debits the balance
to exactly `b - a`, records a COMMITTED prediction carrying the
commitment hash, and raises the market volume by exactly `a`; any second
commit by the same user for the same market then fails "User already has
a prediction for this market" regardless of outcome, amount or salt; and
commits with non-positive amount, an outcome outside {0,1}, or an amount
above the balance fail with the corresponding validation error and leave
the state unchanged. -/
theorem commitPrediction_spec (userId marketId : String) (outcome : Int)
    (amount : ℚ) (salt : String) (now : Int) (m : Market)
    (preds : List Prediction) (bal : ℚ)
    (hopen : m.status = .OPEN) (hclock : now < m.closingAt)
    (hfresh : findByUserAndMarket preds userId marketId = none) :
    (0 < amount → (outcome = 0 ∨ outcome = 1) → amount ≤ bal →
      ∃ newPred,
        commitPrediction userId marketId outcome amount salt now
            ⟨some m, preds, bal⟩
          = ⟨.ok newPred,
              ⟨some { m with volume := m.volume + amount },
                newPred :: preds, bal - amount⟩⟩
        ∧ newPred.status = .COMMITTED
        ∧ newPred.commitmentHash
            = createCommitmentHash userId marketId outcome salt
        ∧ newPred.amountUsdc = amount
        ∧ (∀ outcome2 amount2 salt2,
            (commitPrediction userId marketId outcome2 amount2 salt2 now
                ⟨some { m with volume := m.volume + amount },
                  newPred :: preds, bal - amount⟩).result
              = .error "User already has a prediction for this market"))
    ∧ (amount ≤ 0 →
        commitPrediction userId marketId outcome amount salt now
            ⟨some m, preds, bal⟩
          = ⟨.error "Amount must be greater than 0", ⟨some m, preds, bal⟩⟩)
    ∧ (0 < amount → outcome ≠ 0 → outcome ≠ 1 →
        commitPrediction userId marketId outcome amount salt now
            ⟨some m, preds, bal⟩
          = ⟨.error "Predicted outcome must be 0 (NO) or 1 (YES)",
              ⟨some m, preds, bal⟩⟩)
    ∧ (0 < amount → (outcome = 0 ∨ outcome = 1) → bal < amount →
        commitPrediction userId marketId outcome amount salt now
            ⟨some m, preds, bal⟩
          = ⟨.error "Insufficient balance", ⟨some m, preds, bal⟩⟩) := by
  have hnotle : ¬ m.closingAt ≤ now := not_le.mpr hclock
  refine ⟨?_, ?_, ?_, ?_⟩
  · intro hpos hout hble
    have hv : ¬ (outcome ≠ 0 ∧ outcome ≠ 1) := by
      rcases hout with rfl | rfl <;> simp
    refine ⟨⟨userId ++ ":" ++ marketId, userId, marketId,
      createCommitmentHash userId marketId outcome salt, some salt,
      some "iv", none, amount, .COMMITTED, false, false, 0⟩,
      ?_, rfl, rfl, rfl, ?_⟩
    · simp [commitPrediction, hopen, hnotle, hfresh, not_le.mpr hpos, hv,
        not_lt.mpr hble]
    · intro outcome2 amount2 salt2
      simp [commitPrediction, hopen, hnotle, findByUserAndMarket,
        List.find?_cons]
  · intro hle
    simp [commitPrediction, hopen, hnotle, hfresh, hle]
  · intro hpos h0 h1
    simp [commitPrediction, hopen, hnotle, hfresh, not_le.mpr hpos, h0, h1]
  · intro hpos hout hlt
    have hv : ¬ (outcome ≠ 0 ∧ outcome ≠ 1) := by
      rcases hout with rfl | rfl <;> simp
    simp [commitPrediction, hopen, hnotle, hfresh, not_le.mpr hpos, hv, hlt]

/-- C5 witness: Scenario 1 — with an OPEN market closing in the future, a
first 100-USDC commit of outcome 1 on balance 500 leaves balance 400, a
COMMITTED prediction and volume +100, and a second commit (even of
outcome 0) fails "User already has a prediction for this market". -/
theorem commitPrediction_spec_witness :
    (commitPrediction "user-1" "market-1" 1 100 "mock-salt" 50
        ⟨some ⟨"market-1", .OPEN, 100, none, none, 0⟩, [], 500⟩).state.balance
      = 400
    ∧ (commitPrediction "user-1" "market-1" 1 100 "mock-salt" 50
        ⟨some ⟨"market-1", .OPEN, 100, none, none, 0⟩, [], 500⟩).state.market
      = some ⟨"market-1", .OPEN, 100, none, none, 100⟩
    ∧ (commitPrediction "user-1" "market-1" 0 25 "other-salt" 50
        ((commitPrediction "user-1" "market-1" 1 100 "mock-salt" 50
          ⟨some ⟨"market-1", .OPEN, 100, none, none, 0⟩, [], 500⟩).state)).result
      = .error "User already has a prediction for this market" := by
  have h := (commitPrediction_spec "user-1" "market-1" 1 100 "mock-salt" 50
    ⟨"market-1", .OPEN, 100, none, none, 0⟩ [] 500 rfl (by norm_num)
    rfl).1 (by norm_num) (Or.inr rfl) (by norm_num)
  obtain ⟨newPred, heq, -, -, -, hsecond⟩ := h
  refine ⟨?_, ?_, ?_⟩
  · rw [heq]; norm_num
  · rw [heq]; norm_num
  · rw [heq]; exact hsecond 0 25 "other-salt"

/-! ## PredictionService.revealPrediction (C6, C7)

Modelled from the spec: `PredictionService.revealPrediction` (the service
implementation is missing from the repository snapshot; only its unit
tests are present). -/

/-- Modelled from the spec: the reveal-verification search.  Recomputes
the commitment hash for each candidate outcome in {0,1} and returns the
candidate whose recomputed hash equals the stored hash, if any. -/
def findOutcomeByHash (storedHash : CommitmentHash)
    (userId marketId salt : String) : Option Int :=
  if createCommitmentHash userId marketId 0 salt = storedHash then some 0
  else if createCommitmentHash userId marketId 1 salt = storedHash then some 1
  else none

structure RevealState where
  prediction : Option Prediction
  market : Option Market
deriving DecidableEq, Repr

structure RevealOutcome where
  result : Except String Int
  state : RevealState
deriving Repr

/-- Modelled from the spec: `PredictionService.revealPrediction`.  Guards
in the order exercised by the unit tests (the salt presence is checked
before the market deadline); the reveal window is bounded by `closingAt`
alone — the market status field is never consulted. -/
def revealPrediction (callerId marketId : String) (now : Int)
    (st : RevealState) : RevealOutcome :=
  match st.prediction with
  | none => ⟨.error "Prediction not found", st⟩
  | some p =>
    if p.userId ≠ callerId then ⟨.error "Unauthorized", st⟩
    else if p.marketId ≠ marketId then ⟨.error "Market ID mismatch", st⟩
    else if p.status ≠ .COMMITTED then
      ⟨.error "Prediction already revealed or invalid status", st⟩
    else
      match p.encryptedSalt, p.saltIv with
      | some encSalt, some _iv =>
        match st.market with
        | none => ⟨.error "Market not found", st⟩
        | some m =>
          if m.closingAt ≤ now then ⟨.error "Reveal period has ended", st⟩
          else
            match findOutcomeByHash p.commitmentHash p.userId p.marketId
                (decrypt encSalt) with
            | none =>
              ⟨.error "Invalid commitment hash - cannot determine predicted outcome",
                st⟩
            | some o =>
              ⟨.ok o,
                ⟨some { p with status := .REVEALED,
                               predictedOutcome := some o },
                  st.market⟩⟩
      | _, _ => ⟨.error "Salt not found - cannot reveal prediction", st⟩

/-- C6: reveal verification recomputes the commitment hash for each
candidate outcome in {0,1} and recovers exactly the candidate whose
recomputed hash equals the stored hash; if no candidate reproduces the
stored hash, `revealPrediction` fails "Invalid commitment hash - cannot
determine predicted outcome" and leaves the prediction state unchanged. -/
theorem findOutcomeByHash_spec (h : CommitmentHash)
    (userId marketId salt : String) :
    (∀ o : Int, findOutcomeByHash h userId marketId salt = some o ↔
      ((o = 0 ∨ o = 1) ∧ createCommitmentHash userId marketId o salt = h))
    ∧ (findOutcomeByHash h userId marketId salt = none ↔
        ∀ o : Int, o = 0 ∨ o = 1 →
          createCommitmentHash userId marketId o salt ≠ h)
    ∧ (∀ (p : Prediction) (m : Market) (now : Int),
        p.userId = userId → p.marketId = marketId →
        p.status = .COMMITTED → p.encryptedSalt = some salt →
        p.saltIv = some "iv" → p.commitmentHash = h → now < m.closingAt →
        findOutcomeByHash h userId marketId salt = none →
        revealPrediction userId marketId now ⟨some p, some m⟩
          = ⟨.error "Invalid commitment hash - cannot determine predicted outcome",
              ⟨some p, some m⟩⟩) := by
  refine ⟨?_, ?_, ?_⟩
  · intro o
    constructor
    · intro heq
      by_cases h0 : createCommitmentHash userId marketId 0 salt = h
      · simp [findOutcomeByHash, h0] at heq
        exact ⟨Or.inl heq.symm, heq ▸ h0⟩
      · by_cases h1 : createCommitmentHash userId marketId 1 salt = h
        · simp [findOutcomeByHash, h0, h1] at heq
          exact ⟨Or.inr heq.symm, heq ▸ h1⟩
        · simp [findOutcomeByHash, h0, h1] at heq
    · rintro ⟨rfl | rfl, hh⟩
      · simp [findOutcomeByHash, hh]
      · have h0 : createCommitmentHash userId marketId 0 salt ≠ h := by
          intro h0
          rw [← hh] at h0
          simp [createCommitmentHash] at h0
        simp [findOutcomeByHash, h0, hh]
  · constructor
    · intro hnone o ho hh
      by_cases h0 : createCommitmentHash userId marketId 0 salt = h
      · simp [findOutcomeByHash, h0] at hnone
      · by_cases h1 : createCommitmentHash userId marketId 1 salt = h
        · simp [findOutcomeByHash, h0, h1] at hnone
        · rcases ho with rfl | rfl
          · exact h0 hh
          · exact h1 hh
    · intro hall
      have h0 := hall 0 (Or.inl rfl)
      have h1 := hall 1 (Or.inr rfl)
      simp [findOutcomeByHash, h0, h1]
  · intro p m now h1 h2 h3 h4 h5 h6 h7 hnone
    simp [revealPrediction, h1, h2, h3, h4, h5, not_le.mpr h7, decrypt,
      h6, hnone]

/-- C6 witness: the stored hash of (user, market, outcome 1, salt) is
recovered as outcome 1; outcome 0 does not match it; and a tampered salt
matches no candidate, so `revealPrediction` fails with the
invalid-commitment error, leaving the state unchanged. -/
theorem findOutcomeByHash_spec_witness :
    findOutcomeByHash (createCommitmentHash "user-1" "market-1" 1 "mock-salt")
        "user-1" "market-1" "mock-salt" = some 1
    ∧ findOutcomeByHash (createCommitmentHash "user-1" "market-1" 1 "mock-salt")
        "user-1" "market-1" "tampered-salt" = none
    ∧ revealPrediction "user-1" "market-1" 50
        ⟨some ⟨"pred-1", "user-1", "market-1",
          createCommitmentHash "user-1" "market-1" 1 "mock-salt",
          some "tampered-salt", some "iv", none, 100, .COMMITTED,
          false, false, 0⟩,
          some ⟨"market-1", .OPEN, 100, none, none, 0⟩⟩
      = ⟨.error "Invalid commitment hash - cannot determine predicted outcome",
          ⟨some ⟨"pred-1", "user-1", "market-1",
            createCommitmentHash "user-1" "market-1" 1 "mock-salt",
            some "tampered-salt", some "iv", none, 100, .COMMITTED,
            false, false, 0⟩,
            some ⟨"market-1", .OPEN, 100, none, none, 0⟩⟩⟩ := by
  have hnone : findOutcomeByHash
      (createCommitmentHash "user-1" "market-1" 1 "mock-salt")
      "user-1" "market-1" "tampered-salt" = none := by
    apply ((findOutcomeByHash_spec
      (createCommitmentHash "user-1" "market-1" 1 "mock-salt")
      "user-1" "market-1" "tampered-salt").2.1).mpr
    rintro o (rfl | rfl) hh <;> simp [createCommitmentHash] at hh
  refine ⟨?_, hnone, ?_⟩
  · exact ((findOutcomeByHash_spec
      (createCommitmentHash "user-1" "market-1" 1 "mock-salt")
      "user-1" "market-1" "mock-salt").1 1).mpr ⟨Or.inr rfl, rfl⟩
  · exact (findOutcomeByHash_spec
      (createCommitmentHash "user-1" "market-1" 1 "mock-salt")
      "user-1" "market-1" "tampered-salt").2.2
      ⟨"pred-1", "user-1", "market-1",
        createCommitmentHash "user-1" "market-1" 1 "mock-salt",
        some "tampered-salt", some "iv", none, 100, .COMMITTED,
        false, false, 0⟩
      ⟨"market-1", .OPEN, 100, none, none, 0⟩ 50
      rfl rfl rfl rfl rfl rfl (by norm_num) hnone

/-- C7: the reveal is permitted only while the clock is strictly before
the market's `closingAt` — the market's status field is never consulted,
so the result is identical whatever the status (e.g. already CLOSED) —
and fails "Reveal period has ended" once `closingAt` has passed; a
prediction whose status is not COMMITTED fails "Prediction already
revealed or invalid status"; and a missing encrypted salt or IV fails
"Salt not found - cannot reveal prediction". -/
theorem revealPrediction_preconditions (callerId marketId : String)
    (now : Int) (p : Prediction) (m : Market) :
    (∀ (pred : Option Prediction) (s : MarketStatus),
      (revealPrediction callerId marketId now
          ⟨pred, some { m with status := s }⟩).result
        = (revealPrediction callerId marketId now ⟨pred, some m⟩).result)
    ∧ (p.userId = callerId → p.marketId = marketId →
        p.status = .COMMITTED → p.encryptedSalt.isSome →
        p.saltIv.isSome → m.closingAt ≤ now →
        (revealPrediction callerId marketId now ⟨some p, some m⟩).result
          = .error "Reveal period has ended")
    ∧ (∀ o : Int,
        (revealPrediction callerId marketId now ⟨some p, some m⟩).result
          = .ok o → now < m.closingAt)
    ∧ (p.userId = callerId → p.marketId = marketId →
        p.status ≠ .COMMITTED →
        (revealPrediction callerId marketId now ⟨some p, some m⟩).result
          = .error "Prediction already revealed or invalid status")
    ∧ (p.userId = callerId → p.marketId = marketId →
        p.status = .COMMITTED →
        (p.encryptedSalt = none ∨ p.saltIv = none) →
        (revealPrediction callerId marketId now ⟨some p, some m⟩).result
          = .error "Salt not found - cannot reveal prediction") := by
  refine ⟨?_, ?_, ?_, ?_, ?_⟩
  · intro pred s
    match pred with
    | none => rfl
    | some q =>
      by_cases h1 : q.userId = callerId
      · by_cases h2 : q.marketId = marketId
        · by_cases h3 : q.status = .COMMITTED
          · cases hsalt : q.encryptedSalt with
            | none => simp [revealPrediction, h1, h2, h3, hsalt]
            | some enc =>
              cases hiv : q.saltIv with
              | none => simp [revealPrediction, h1, h2, h3, hsalt, hiv]
              | some iv =>
                by_cases h4 : m.closingAt ≤ now
                · simp [revealPrediction, h1, h2, h3, hsalt, hiv, h4]
                · cases hfind : findOutcomeByHash q.commitmentHash q.userId
                      q.marketId (decrypt enc) with
                  | none =>
                    rw [h1, h2] at hfind
                    simp [revealPrediction, h1, h2, h3, hsalt, hiv, h4, hfind]
                  | some o =>
                    rw [h1, h2] at hfind
                    simp [revealPrediction, h1, h2, h3, hsalt, hiv, h4, hfind]
          · simp [revealPrediction, h1, h2, h3]
        · simp [revealPrediction, h1, h2]
      · simp [revealPrediction, h1]
  · intro h1 h2 h3 h4 h5 hlate
    obtain ⟨enc, henc⟩ := Option.isSome_iff_exists.mp h4
    obtain ⟨iv, hiv⟩ := Option.isSome_iff_exists.mp h5
    simp [revealPrediction, h1, h2, h3, henc, hiv, hlate]
  · intro o hok
    by_cases h1 : p.userId = callerId
    · by_cases h2 : p.marketId = marketId
      · by_cases h3 : p.status = .COMMITTED
        · cases hsalt : p.encryptedSalt with
          | none => simp [revealPrediction, h1, h2, h3, hsalt] at hok
          | some enc =>
            cases hiv : p.saltIv with
            | none => simp [revealPrediction, h1, h2, h3, hsalt, hiv] at hok
            | some iv =>
              by_cases h4 : m.closingAt ≤ now
              · simp [revealPrediction, h1, h2, h3, hsalt, hiv, h4] at hok
              · exact not_le.mp h4
        · simp [revealPrediction, h1, h2, h3] at hok
      · simp [revealPrediction, h1, h2] at hok
    · simp [revealPrediction, h1] at hok
  · intro h1 h2 h3
    simp [revealPrediction, h1, h2, h3]
  · intro h1 h2 h3 hmiss
    rcases hmiss with hmiss | hmiss
    · simp [revealPrediction, h1, h2, h3, hmiss]
    · cases hsalt : p.encryptedSalt with
      | none => simp [revealPrediction, h1, h2, h3, hsalt]
      | some enc => simp [revealPrediction, h1, h2, h3, hsalt, hmiss]

/-- C7 witness: with a COMMITTED prediction and salts present, a reveal
at `now = 150` past `closingAt = 100` fails "Reveal period has ended"
even though the deadline, not the status, is what is consulted (the
CLOSED and OPEN variants of the market agree); a REVEALED prediction
fails "Prediction already revealed or invalid status"; a missing salt
fails "Salt not found - cannot reveal prediction". -/
theorem revealPrediction_preconditions_witness :
    (revealPrediction "user-1" "market-1" 150
        ⟨some ⟨"pred-1", "user-1", "market-1",
          createCommitmentHash "user-1" "market-1" 1 "mock-salt",
          some "mock-salt", some "iv", none, 100, .COMMITTED,
          false, false, 0⟩,
          some ⟨"market-1", .CLOSED, 100, none, none, 0⟩⟩).result
      = .error "Reveal period has ended"
    ∧ (revealPrediction "user-1" "market-1" 150
        ⟨some ⟨"pred-1", "user-1", "market-1",
          createCommitmentHash "user-1" "market-1" 1 "mock-salt",
          some "mock-salt", some "iv", none, 100, .COMMITTED,
          false, false, 0⟩,
          some ⟨"market-1", .CLOSED, 100, none, none, 0⟩⟩).result
      = (revealPrediction "user-1" "market-1" 150
        ⟨some ⟨"pred-1", "user-1", "market-1",
          createCommitmentHash "user-1" "market-1" 1 "mock-salt",
          some "mock-salt", some "iv", none, 100, .COMMITTED,
          false, false, 0⟩,
          some ⟨"market-1", .OPEN, 100, none, none, 0⟩⟩).result
    ∧ (revealPrediction "user-1" "market-1" 50
        ⟨some ⟨"pred-1", "user-1", "market-1",
          createCommitmentHash "user-1" "market-1" 1 "mock-salt",
          some "mock-salt", some "iv", none, 100, .REVEALED,
          false, false, 0⟩,
          some ⟨"market-1", .OPEN, 100, none, none, 0⟩⟩).result
      = .error "Prediction already revealed or invalid status"
    ∧ (revealPrediction "user-1" "market-1" 50
        ⟨some ⟨"pred-1", "user-1", "market-1",
          createCommitmentHash "user-1" "market-1" 1 "mock-salt",
          none, none, none, 100, .COMMITTED, false, false, 0⟩,
          some ⟨"market-1", .OPEN, 100, none, none, 0⟩⟩).result
      = .error "Salt not found - cannot reveal prediction" := by
  refine ⟨?_, ?_, ?_, ?_⟩
  · exact (revealPrediction_preconditions "user-1" "market-1" 150
      ⟨"pred-1", "user-1", "market-1",
        createCommitmentHash "user-1" "market-1" 1 "mock-salt",
        some "mock-salt", some "iv", none, 100, .COMMITTED, false, false, 0⟩
      ⟨"market-1", .CLOSED, 100, none, none, 0⟩).2.1
      rfl rfl rfl rfl rfl (by norm_num)
  · exact ((revealPrediction_preconditions "user-1" "market-1" 150
      ⟨"pred-1", "user-1", "market-1",
        createCommitmentHash "user-1" "market-1" 1 "mock-salt",
        some "mock-salt", some "iv", none, 100, .COMMITTED, false, false, 0⟩
      ⟨"market-1", .OPEN, 100, none, none, 0⟩).1
      (some ⟨"pred-1", "user-1", "market-1",
        createCommitmentHash "user-1" "market-1" 1 "mock-salt",
        some "mock-salt", some "iv", none, 100, .COMMITTED, false, false, 0⟩)
      .CLOSED)
  · exact (revealPrediction_preconditions "user-1" "market-1" 50
      ⟨"pred-1", "user-1", "market-1",
        createCommitmentHash "user-1" "market-1" 1 "mock-salt",
        some "mock-salt", some "iv", none, 100, .REVEALED, false, false, 0⟩
      ⟨"market-1", .OPEN, 100, none, none, 0⟩).2.2.2.1
      rfl rfl (by simp)
  · exact (revealPrediction_preconditions "user-1" "market-1" 50
      ⟨"pred-1", "user-1", "market-1",
        createCommitmentHash "user-1" "market-1" 1 "mock-salt",
        none, none, none, 100, .COMMITTED, false, false, 0⟩
      ⟨"market-1", .OPEN, 100, none, none, 0⟩).2.2.2.2
      rfl rfl rfl (Or.inl rfl)

/-! ## Oracle consensus (C2)

Modelled from the spec: the DOAN consensus tally (no oracle service or
contract source is in the repository snapshot; `DOAN_DOCS.md` gives both
a formula `Math.ceil(total / 2) + 1` and a consensus table 2-of-3,
3-of-5, 4-of-7, which disagree on odd totals).  Both readings are
embedded so they can be compared. -/

/-- Modelled from the spec: the consensus threshold as the doc's literal
formula `Math.ceil(total / 2) + 1` (`⌈total / 2⌉ + 1`). -/
def consensusThresholdCeil (totalOracles : ℕ) : ℕ :=
  (totalOracles + 1) / 2 + 1

/-- Modelled from the spec: the consensus threshold as fixed by the doc's
consensus table (2 of 3, 5 of 5 → 3, 7 → 4) and the spec's worked
examples: the smallest strict majority, `⌊total / 2⌋ + 1`. -/
def consensusThreshold (totalOracles : ℕ) : ℕ :=
  totalOracles / 2 + 1

/-- Modelled from the spec: `checkConsensus` as a pure tally over the
recorded attestation outcomes, with the literal ceiling formula as
threshold. -/
def checkConsensusCeil (attestations : List Int) (totalOracles : ℕ) :
    Option Int :=
  if consensusThresholdCeil totalOracles ≤ attestations.count 1 then some 1
  else if consensusThresholdCeil totalOracles ≤ attestations.count 0 then
    some 0
  else none

/-- Modelled from the spec: `checkConsensus` as a pure tally over the
recorded attestation outcomes, with the majority threshold of the
consensus table. -/
def checkConsensus (attestations : List Int) (totalOracles : ℕ) :
    Option Int :=
  if consensusThreshold totalOracles ≤ attestations.count 1 then some 1
  else if consensusThreshold totalOracles ≤ attestations.count 0 then some 0
  else none

/-- Each attestation counts once towards at most one of the two tallies. -/
theorem count_zero_add_count_one_le (l : List Int) :
    l.count 0 + l.count 1 ≤ l.length := by
  induction l with
  | nil => simp
  | cons a l ih =>
    rcases eq_or_ne a 0 with rfl | h0
    · simp [List.count_cons, ih]
      omega
    · rcases eq_or_ne a 1 with rfl | h1
      · simp [List.count_cons, ih]
        omega
      · simp [List.count_cons, h0.symm, h1.symm]
        omega

/-- C2 counterexample: under the claim's literal threshold formula
`⌈total / 2⌉ + 1`, five registered oracles need 4 — not 3 — agreeing
attestations, and three agreeing attestations out of five yield no
consensus, refuting the claim's own "with 5 registered oracles consensus
requires ≥3 agreeing attestations". -/
theorem checkConsensusCeil_five_counterexample :
    consensusThresholdCeil 5 = 4
    ∧ checkConsensusCeil [1, 1, 1] 5 = none
    ∧ ¬ (consensusThresholdCeil 5 ≤ 3) := by
  refine ⟨rfl, ?_, by decide⟩
  decide

/-- C2 (amended): with the majority threshold `⌊total / 2⌋ + 1` fixed by
the doc's consensus table, `checkConsensus` returns an outcome iff the
count of attestations agreeing on that outcome meets or exceeds the
threshold (given at most one attestation per registered oracle), and
otherwise reports no consensus; with 5 registered oracles the threshold
is 3, and 2 agreeing plus 2 disagreeing attestations out of 5 yield no
consensus. -/
theorem checkConsensus_spec (attestations : List Int) (totalOracles : ℕ)
    (hcard : attestations.length ≤ totalOracles) :
    (∀ o : Int, checkConsensus attestations totalOracles = some o ↔
      ((o = 0 ∨ o = 1) ∧
        consensusThreshold totalOracles ≤ attestations.count o))
    ∧ (checkConsensus attestations totalOracles = none ↔
        (attestations.count 1 < consensusThreshold totalOracles ∧
          attestations.count 0 < consensusThreshold totalOracles))
    ∧ consensusThreshold 5 = 3
    ∧ checkConsensus [1, 1, 0, 0] 5 = none := by
  have hsum := count_zero_add_count_one_le attestations
  have hth : totalOracles < 2 * consensusThreshold totalOracles := by
    simp only [consensusThreshold]
    omega
  refine ⟨?_, ?_, rfl, by decide⟩
  · intro o
    constructor
    · intro heq
      by_cases h1 : consensusThreshold totalOracles ≤ attestations.count 1
      · simp [checkConsensus, h1] at heq
        exact ⟨Or.inr heq.symm, heq ▸ h1⟩
      · by_cases h0 : consensusThreshold totalOracles ≤ attestations.count 0
        · simp [checkConsensus, h1, h0] at heq
          exact ⟨Or.inl heq.symm, heq ▸ h0⟩
        · simp [checkConsensus, h1, h0] at heq
    · rintro ⟨rfl | rfl, hcount⟩
      · have h1 : ¬ consensusThreshold totalOracles ≤ attestations.count 1 := by
          omega
        simp [checkConsensus, h1, hcount]
      · simp [checkConsensus, hcount]
  · constructor
    · intro heq
      by_cases h1 : consensusThreshold totalOracles ≤ attestations.count 1
      · simp [checkConsensus, h1] at heq
      · by_cases h0 : consensusThreshold totalOracles ≤ attestations.count 0
        · simp [checkConsensus, h1, h0] at heq
        · exact ⟨not_le.mp h1, not_le.mp h0⟩
    · rintro ⟨h1, h0⟩
      simp [checkConsensus, not_le.mpr h1, not_le.mpr h0]

/-- C2 witness: with 5 registered oracles, three agreeing attestations on
outcome 1 reach consensus on outcome 1 under the majority threshold. -/
theorem checkConsensus_spec_witness :
    checkConsensus [1, 1, 1] 5 = some 1
    ∧ ([1, 1, 1] : List Int).length ≤ 5 := by
  refine ⟨?_, by decide⟩
  exact ((checkConsensus_spec [1, 1, 1] 5 (by decide)).1 1).mpr
    ⟨Or.inr rfl, by decide⟩

/-! ## TradingService.sellShares (C3)

Modelled from the spec: `TradingService.sellShares` (the service
implementation is missing from the repository snapshot; only its unit
tests are present).  The AMM blockchain call is an external collaborator,
so its quoted payout is an explicit input; the structured error type
carries the data the thrown errors report. -/

structure SharePosition where
  id : String
  quantity : ℚ
  costBasis : ℚ
  soldQuantity : ℚ
  realizedPnl : ℚ
deriving DecidableEq, Repr

structure TradeRecord where
  marketId : String
  outcome : Int
  sharesSold : ℚ
  payout : ℚ
deriving DecidableEq, Repr

inductive SellError where
  | invalidOutcome
  | invalidShareCount
  | marketNotFound
  | marketNotOpen
  | noSharesFound (outcomeLabel : String)
  | insufficientShares (available requested : ℚ)
  | slippageExceeded
deriving DecidableEq, Repr

structure SellResult where
  sharesSold : ℚ
  payout : ℚ
  remainingShares : ℚ
deriving DecidableEq, Repr

structure TradingState where
  market : Option Market
  position : Option SharePosition
  balance : ℚ
  trades : List TradeRecord
deriving DecidableEq, Repr

structure SellOutcome where
  result : Except SellError SellResult
  state : TradingState
deriving Repr

/-- Display label for an outcome in error messages. -/
def outcomeLabel (o : Int) : String := if o = 1 then "YES" else "NO"

/-- Modelled from the spec: `TradingService.sellShares`.  Validation in
the order exercised by the unit tests; a missing `minPayout` defaults to
95% of the requested share count; a quoted payout below the effective
`minPayout` aborts with `slippageExceeded` before any state change; on
success the position is decremented, the balance credited by the payout,
and a trade appended, atomically. -/
def sellShares (marketId : String) (outcome : Int) (shares : ℚ)
    (minPayout : Option ℚ) (quotedPayout : ℚ) (st : TradingState) :
    SellOutcome :=
  if outcome ≠ 0 ∧ outcome ≠ 1 then ⟨.error .invalidOutcome, st⟩
  else if shares ≤ 0 then ⟨.error .invalidShareCount, st⟩
  else
    match st.market with
    | none => ⟨.error .marketNotFound, st⟩
    | some m =>
      if m.status ≠ .OPEN then ⟨.error .marketNotOpen, st⟩
      else
        match st.position with
        | none => ⟨.error (.noSharesFound (outcomeLabel outcome)), st⟩
        | some pos =>
          if pos.quantity < shares then
            ⟨.error (.insufficientShares pos.quantity shares), st⟩
          else
            let effMinPayout := minPayout.getD (shares * 95 / 100)
            if quotedPayout < effMinPayout then
              ⟨.error .slippageExceeded, st⟩
            else
              ⟨.ok ⟨shares, quotedPayout, pos.quantity - shares⟩,
                ⟨st.market,
                  some { pos with
                    quantity := pos.quantity - shares,
                    soldQuantity := pos.soldQuantity + shares,
                    realizedPnl := pos.realizedPnl +
                      (quotedPayout - pos.costBasis * shares / pos.quantity) },
                  st.balance + quotedPayout,
                  ⟨marketId, outcome, shares, quotedPayout⟩ :: st.trades⟩⟩

/-- C3: `sellShares` fails `invalidOutcome` for an outcome other than 0
or 1, `invalidShareCount` for `shares ≤ 0`, `marketNotFound` for a
missing market, `noSharesFound` naming the outcome label ("YES"/"NO")
for a missing position, and `insufficientShares` reporting available vs
requested when the position is too small; an omitted `minPayout`
defaults to 95% of the share count, a quoted payout below the effective
`minPayout` fails `slippageExceeded`, and every error leaves the state
unchanged — no position decrement, no balance credit, no trade record. -/
theorem sellShares_spec (marketId : String) (outcome : Int) (shares : ℚ)
    (minPayout : Option ℚ) (quotedPayout : ℚ) (st : TradingState) :
    (outcome ≠ 0 → outcome ≠ 1 →
      (sellShares marketId outcome shares minPayout quotedPayout st).result
        = .error .invalidOutcome)
    ∧ ((outcome = 0 ∨ outcome = 1) → shares ≤ 0 →
      (sellShares marketId outcome shares minPayout quotedPayout st).result
        = .error .invalidShareCount)
    ∧ ((outcome = 0 ∨ outcome = 1) → 0 < shares → st.market = none →
      (sellShares marketId outcome shares minPayout quotedPayout st).result
        = .error .marketNotFound)
    ∧ (∀ m, (outcome = 0 ∨ outcome = 1) → 0 < shares →
        st.market = some m → m.status = .OPEN → st.position = none →
      (sellShares marketId outcome shares minPayout quotedPayout st).result
        = .error (.noSharesFound (if outcome = 1 then "YES" else "NO")))
    ∧ (∀ m pos, (outcome = 0 ∨ outcome = 1) → 0 < shares →
        st.market = some m → m.status = .OPEN → st.position = some pos →
        pos.quantity < shares →
      (sellShares marketId outcome shares minPayout quotedPayout st).result
        = .error (.insufficientShares pos.quantity shares))
    ∧ (∀ m pos, (outcome = 0 ∨ outcome = 1) → 0 < shares →
        st.market = some m → m.status = .OPEN → st.position = some pos →
        shares ≤ pos.quantity →
        quotedPayout < minPayout.getD (shares * 95 / 100) →
      sellShares marketId outcome shares minPayout quotedPayout st
        = ⟨.error .slippageExceeded, st⟩)
    ∧ (sellShares marketId outcome shares none quotedPayout st
        = sellShares marketId outcome shares (some (shares * 95 / 100))
            quotedPayout st)
    ∧ (∀ e, (sellShares marketId outcome shares minPayout quotedPayout
          st).result = .error e →
        (sellShares marketId outcome shares minPayout quotedPayout
          st).state = st) := by
  refine ⟨?_, ?_, ?_, ?_, ?_, ?_, ?_, ?_⟩
  · intro h0 h1
    simp [sellShares, h0, h1]
  · intro hout hle
    have hv : ¬ (outcome ≠ 0 ∧ outcome ≠ 1) := by
      rcases hout with rfl | rfl <;> simp
    simp [sellShares, hv, hle]
  · intro hout hpos hnone
    have hv : ¬ (outcome ≠ 0 ∧ outcome ≠ 1) := by
      rcases hout with rfl | rfl <;> simp
    simp [sellShares, hv, not_le.mpr hpos, hnone]
  · intro m hout hpos hm hopen hnopos
    have hv : ¬ (outcome ≠ 0 ∧ outcome ≠ 1) := by
      rcases hout with rfl | rfl <;> simp
    simp [sellShares, hv, not_le.mpr hpos, hm, hopen, hnopos, outcomeLabel]
  · intro m pos hout hpos hm hopen hsome hlt
    have hv : ¬ (outcome ≠ 0 ∧ outcome ≠ 1) := by
      rcases hout with rfl | rfl <;> simp
    simp [sellShares, hv, not_le.mpr hpos, hm, hopen, hsome, hlt]
  · intro m pos hout hpos hm hopen hsome hge hslip
    have hv : ¬ (outcome ≠ 0 ∧ outcome ≠ 1) := by
      rcases hout with rfl | rfl <;> simp
    simp [sellShares, hv, not_le.mpr hpos, hm, hopen, hsome,
      not_lt.mpr hge, hslip]
  · rfl
  · intro e herr
    by_cases hv : outcome ≠ 0 ∧ outcome ≠ 1
    · simp [sellShares, hv]
    · by_cases hsh : shares ≤ 0
      · simp [sellShares, hv, hsh]
      · cases hm : st.market with
        | none => simp [sellShares, hv, hsh, hm]
        | some m =>
          by_cases hopen : m.status = .OPEN
          · cases hpos : st.position with
            | none => simp [sellShares, hv, hsh, hm, hopen, hpos]
            | some pos =>
              by_cases hq : pos.quantity < shares
              · simp [sellShares, hv, hsh, hm, hopen, hpos, hq]
              · by_cases hslip :
                  quotedPayout < minPayout.getD (shares * 95 / 100)
                · simp [sellShares, hv, hsh, hm, hopen, hpos, hq, hslip]
                · simp [sellShares, hv, hsh, hm, hopen, hpos, hq, hslip]
                    at herr
          · simp [sellShares, hv, hsh, hm, hopen]

/-- C3 witness: Scenario of the unit tests — selling 100 shares with
`minPayout` omitted defaults the floor to 95; a quoted payout of 52 is
below 95, so the sale fails `slippageExceeded` and the state (position of
100 shares, balance 1000, no trades) is unchanged; outcome 2 fails
`invalidOutcome`; a 30-share position cannot sell 50 and reports
available 30 vs requested 50. -/
theorem sellShares_spec_witness :
    sellShares "market-1" 1 100 none 52
        ⟨some ⟨"market-1", .OPEN, 100, none, none, 0⟩,
          some ⟨"share-1", 100, 100, 0, 0⟩, 1000, []⟩
      = ⟨.error .slippageExceeded,
          ⟨some ⟨"market-1", .OPEN, 100, none, none, 0⟩,
            some ⟨"share-1", 100, 100, 0, 0⟩, 1000, []⟩⟩
    ∧ (sellShares "market-1" 2 10 none 10
        ⟨some ⟨"market-1", .OPEN, 100, none, none, 0⟩,
          some ⟨"share-1", 100, 100, 0, 0⟩, 1000, []⟩).result
      = .error .invalidOutcome
    ∧ (sellShares "market-1" 1 50 none 52
        ⟨some ⟨"market-1", .OPEN, 100, none, none, 0⟩,
          some ⟨"share-1", 30, 100, 0, 0⟩, 1000, []⟩).result
      = .error (.insufficientShares 30 50) := by
  refine ⟨?_, ?_, ?_⟩
  · have h := (sellShares_spec "market-1" 1 100 none 52
      ⟨some ⟨"market-1", .OPEN, 100, none, none, 0⟩,
        some ⟨"share-1", 100, 100, 0, 0⟩, 1000, []⟩).2.2.2.2.2.1
      ⟨"market-1", .OPEN, 100, none, none, 0⟩ ⟨"share-1", 100, 100, 0, 0⟩
      (Or.inr rfl) (by norm_num) rfl rfl rfl (by norm_num) (by norm_num)
    exact h
  · exact (sellShares_spec "market-1" 2 10 none 10
      ⟨some ⟨"market-1", .OPEN, 100, none, none, 0⟩,
        some ⟨"share-1", 100, 100, 0, 0⟩, 1000, []⟩).1
      (by norm_num) (by norm_num)
  · exact (sellShares_spec "market-1" 1 50 none 52
      ⟨some ⟨"market-1", .OPEN, 100, none, none, 0⟩,
        some ⟨"share-1", 30, 100, 0, 0⟩, 1000, []⟩).2.2.2.2.1
      ⟨"market-1", .OPEN, 100, none, none, 0⟩ ⟨"share-1", 30, 100, 0, 0⟩
      (Or.inr rfl) (by norm_num) rfl rfl rfl (by norm_num)

/-! ## DisputeService (C8)

From `dispute.service.ts`, included as the third concatenated document of
`backend/src/routes/notifications.routes.ts`.  The repository lookups
(`findById` on the dispute and on its market) are explicit inputs; the
timestamps (`resolvedAt`) are omitted. -/

inductive DisputeStatus where
  | OPEN
  | REVIEWING
  | RESOLVED
  | DISMISSED
deriving DecidableEq, Repr

structure Dispute where
  id : String
  marketId : String
  userId : String
  reason : String
  evidenceUrl : Option String
  status : DisputeStatus
  resolution : Option String
  adminNotes : Option String
deriving DecidableEq, Repr

inductive DisputeAction where
  | DISMISS
  | RESOLVE_NEW_OUTCOME
deriving DecidableEq, Repr

/-- `DisputeService.submitDispute`: legal only against a RESOLVED or
CLOSED market (status-specific message otherwise); creates an OPEN
dispute and moves the market to DISPUTED. -/
def submitDispute (marketId userId reason : String)
    (evidenceUrl : Option String) (market : Option Market) :
    Except String (Dispute × Market) :=
  match market with
  | none => .error "Market not found"
  | some m =>
    if m.status ≠ .RESOLVED ∧ m.status ≠ .CLOSED then
      .error ("Market in " ++ m.status.name ++ " status cannot be disputed")
    else
      .ok (⟨marketId ++ ":dispute", marketId, userId, reason, evidenceUrl,
          .OPEN, none, none⟩,
        { m with status := .DISPUTED })

/-- `DisputeService.resolveDispute`: DISMISS marks the dispute DISMISSED
(recording resolution and adminNotes) and restores the market to
RESOLVED without touching its outcome or source; RESOLVE_NEW_OUTCOME
requires a `newWinningOutcome` to be supplied — the code never validates
the value itself — marks the dispute RESOLVED, and re-resolves the
market to RESOLVED with that outcome, overwriting `resolutionSource`
with "Dispute Resolution: <resolution>". -/
def resolveDispute (dispute : Option Dispute) (market : Option Market)
    (action : DisputeAction) (resolution : String)
    (adminNotes : Option String) (newWinningOutcome : Option Int) :
    Except String (Dispute × Market) :=
  match dispute with
  | none => .error "Dispute not found"
  | some d =>
    match market with
    | none => .error "Market not found"
    | some m =>
      match action with
      | .DISMISS =>
        .ok ({ d with status := .DISMISSED,
                      resolution := some resolution,
                      adminNotes := adminNotes },
          { m with status := .RESOLVED })
      | .RESOLVE_NEW_OUTCOME =>
        match newWinningOutcome with
        | none => .error "New winning outcome is required for resolution"
        | some o =>
          .ok ({ d with status := .RESOLVED,
                        resolution := some resolution,
                        adminNotes := adminNotes },
            { m with status := .RESOLVED,
                     winningOutcome := some o,
                     resolutionSource :=
                       some ("Dispute Resolution: " ++ resolution) })

/-- C8 counterexample: `resolveDispute` only rejects a missing
`newWinningOutcome` — the value is never validated, neither in the
service nor in the disputes controller — so RESOLVE_NEW_OUTCOME with
outcome 2 (outside {0,1}) succeeds and stamps `winningOutcome = 2`,
refuting the claim's "the supplied newWinningOutcome ∈ {0,1}". -/
theorem resolveDispute_outcome_two_counterexample :
    resolveDispute
        (some ⟨"d1", "m1", "u1", "bad outcome", none, .REVIEWING,
          none, none⟩)
        (some ⟨"m1", .DISPUTED, 100, some 1, some "admin", 0⟩)
        .RESOLVE_NEW_OUTCOME "oops" none (some 2)
      = .ok (⟨"d1", "m1", "u1", "bad outcome", none, .RESOLVED,
            some "oops", none⟩,
          ⟨"m1", .RESOLVED, 100, some 2,
            some "Dispute Resolution: oops", 0⟩)
    ∧ ((2 : Int) ≠ 0 ∧ (2 : Int) ≠ 1) :=
  ⟨rfl, by decide, by decide⟩

/-- C8 (amended): `submitDispute` succeeds exactly when the market is
RESOLVED or CLOSED — an OPEN market fails "Market in OPEN status cannot
be disputed" — and on success creates an OPEN dispute and moves the
market to DISPUTED; `resolveDispute` with DISMISS marks the dispute
DISMISSED and restores the market to RESOLVED keeping its original
`winningOutcome` and `resolutionSource`, while RESOLVE_NEW_OUTCOME with
any supplied outcome (required to be present, but its value is not
validated against {0,1}) marks the dispute RESOLVED and re-resolves the
market to RESOLVED with that outcome, overwriting `resolutionSource`
with "Dispute Resolution: <resolution>"; an omitted outcome fails
"New winning outcome is required for resolution". -/
theorem disputeService_spec (marketId userId reason resolution : String)
    (evidenceUrl adminNotes : Option String) (m : Market) (d : Dispute) :
    ((∃ r, submitDispute marketId userId reason evidenceUrl (some m)
        = .ok r) ↔ (m.status = .RESOLVED ∨ m.status = .CLOSED))
    ∧ (m.status = .OPEN →
        submitDispute marketId userId reason evidenceUrl (some m)
          = .error "Market in OPEN status cannot be disputed")
    ∧ (m.status = .RESOLVED ∨ m.status = .CLOSED →
        ∀ dm, submitDispute marketId userId reason evidenceUrl (some m)
            = .ok dm →
          dm.1.status = .OPEN ∧ dm.2.status = .DISPUTED
          ∧ dm.2.winningOutcome = m.winningOutcome)
    ∧ (resolveDispute (some d) (some m) .DISMISS resolution adminNotes
          none
        = .ok ({ d with status := .DISMISSED,
                        resolution := some resolution,
                        adminNotes := adminNotes },
            { m with status := .RESOLVED }))
    ∧ (∀ o : Int,
        resolveDispute (some d) (some m) .RESOLVE_NEW_OUTCOME resolution
            adminNotes (some o)
          = .ok ({ d with status := .RESOLVED,
                          resolution := some resolution,
                          adminNotes := adminNotes },
              { m with status := .RESOLVED,
                       winningOutcome := some o,
                       resolutionSource :=
                         some ("Dispute Resolution: " ++ resolution) }))
    ∧ (resolveDispute (some d) (some m) .RESOLVE_NEW_OUTCOME resolution
          adminNotes none
        = .error "New winning outcome is required for resolution") := by
  refine ⟨?_, ?_, ?_, rfl, fun o => rfl, rfl⟩
  · constructor
    · rintro ⟨r, hr⟩
      by_cases hres : m.status = .RESOLVED
      · exact Or.inl hres
      · by_cases hcl : m.status = .CLOSED
        · exact Or.inr hcl
        · simp [submitDispute, hres, hcl] at hr
    · rintro hst
      have hv : ¬ (m.status ≠ .RESOLVED ∧ m.status ≠ .CLOSED) := by
        rcases hst with h | h <;> simp [h]
      refine ⟨(⟨marketId ++ ":dispute", marketId, userId, reason,
        evidenceUrl, .OPEN, none, none⟩,
        { m with status := .DISPUTED }), ?_⟩
      simp [submitDispute, hv]
  · intro hst
    simp [submitDispute, hst, MarketStatus.name]
  · rintro hst dm hdm
    have hv : ¬ (m.status ≠ .RESOLVED ∧ m.status ≠ .CLOSED) := by
      rcases hst with h | h <;> simp [h]
    simp [submitDispute, hv] at hdm
    rw [← hdm]
    exact ⟨rfl, rfl, rfl⟩

/-- C8 witness: an OPEN market is rejected with the status-specific
message; DISMISS restores RESOLVED with the original outcome 1 and the
original source; RESOLVE_NEW_OUTCOME with outcome 0 re-resolves to
RESOLVED with winningOutcome 0 and the overwritten source; and a
RESOLVED market accepts a dispute, yielding an OPEN dispute and a
DISPUTED market. -/
theorem disputeService_spec_witness :
    submitDispute "m1" "u1" "bad outcome" none
        (some ⟨"m1", .OPEN, 100, none, none, 0⟩)
      = .error "Market in OPEN status cannot be disputed"
    ∧ resolveDispute
        (some ⟨"d1", "m1", "u1", "bad outcome", none, .REVIEWING,
          none, none⟩)
        (some ⟨"m1", .DISPUTED, 100, some 1, some "admin", 0⟩)
        .DISMISS "Invalid claim" none none
      = .ok (⟨"d1", "m1", "u1", "bad outcome", none, .DISMISSED,
            some "Invalid claim", none⟩,
          ⟨"m1", .RESOLVED, 100, some 1, some "admin", 0⟩)
    ∧ resolveDispute
        (some ⟨"d1", "m1", "u1", "bad outcome", none, .REVIEWING,
          none, none⟩)
        (some ⟨"m1", .DISPUTED, 100, some 1, some "admin", 0⟩)
        .RESOLVE_NEW_OUTCOME "Corrected outcome" none (some 0)
      = .ok (⟨"d1", "m1", "u1", "bad outcome", none, .RESOLVED,
            some "Corrected outcome", none⟩,
          ⟨"m1", .RESOLVED, 100, some 0,
            some "Dispute Resolution: Corrected outcome", 0⟩)
    ∧ (∃ r, submitDispute "m1" "u1" "bad outcome" none
        (some ⟨"m1", .RESOLVED, 100, some 1, some "admin", 0⟩) = .ok r) := by
  refine ⟨?_, ?_, ?_, ?_⟩
  · exact (disputeService_spec "m1" "u1" "bad outcome" "" none none
      ⟨"m1", .OPEN, 100, none, none, 0⟩
      ⟨"d1", "m1", "u1", "bad outcome", none, .OPEN, none, none⟩).2.1 rfl
  · exact (disputeService_spec "m1" "u1" "bad outcome" "Invalid claim"
      none none
      ⟨"m1", .DISPUTED, 100, some 1, some "admin", 0⟩
      ⟨"d1", "m1", "u1", "bad outcome", none, .REVIEWING,
        none, none⟩).2.2.2.1
  · exact (disputeService_spec "m1" "u1" "bad outcome" "Corrected outcome"
      none none
      ⟨"m1", .DISPUTED, 100, some 1, some "admin", 0⟩
      ⟨"d1", "m1", "u1", "bad outcome", none, .REVIEWING,
        none, none⟩).2.2.2.2.1 0
  · exact ((disputeService_spec "m1" "u1" "bad outcome" "" none none
      ⟨"m1", .RESOLVED, 100, some 1, some "admin", 0⟩
      ⟨"d1", "m1", "u1", "bad outcome", none, .OPEN, none, none⟩).1).mpr
      (Or.inl rfl)


/-! ## AchievementService.checkAndAward (C9)

From `backend/src/services/achievement.service.ts`.  Each catalog
entry's database interactions (`def.check(userId)` and
`prisma.achievement.create`) are external effects, embedded as explicit
`Except` inputs per entry; prisma's unique-constraint violation P2002 is
the `uniqueViolation` error. -/

inductive DbError where
  | uniqueViolation
  | other (msg : String)
deriving DecidableEq, Repr

/-- One catalog entry paired with the outcomes its database calls would
produce for this user. -/
structure CatalogEntry where
  name : String
  checkResult : Except String Bool
  createResult : Except DbError Unit
deriving Repr

/-- `AchievementService.award`: attempts the create; a P2002 unique
violation (already awarded) is swallowed and the award skipped; any
other error is rethrown. -/
def award (e : CatalogEntry) : Except DbError Bool :=
  match e.createResult with
  | .ok _ => .ok true
  | .error .uniqueViolation => .ok false
  | .error err => .error err

/-- One task of the `Promise.allSettled` batch: run the check, and on
qualification run `award`; its rejection carries the error message. -/
def runAchievementTask (e : CatalogEntry) : Except String Bool :=
  match e.checkResult with
  | .error msg => .error msg
  | .ok false => .ok false
  | .ok true =>
    match award e with
    | .ok b => .ok b
    | .error .uniqueViolation => .ok false
    | .error (.other msg) => .error msg

/-- The outcome of `checkAndAward`: it never throws, it only returns
awarded names and logged failures. -/
structure CheckAndAwardResult where
  awarded : List String
  warnings : List String
  engineError : Option String
deriving DecidableEq, Repr

/-- `AchievementService.checkAndAward`: filters out already-awarded
names, runs all remaining checks, logs (rather than raises) each task
failure, and catches any engine-level failure such as the initial
`findMany`. -/
def checkAndAward (findExisting : Except String (List String))
    (catalog : List CatalogEntry) : CheckAndAwardResult :=
  match findExisting with
  | .error msg => ⟨[], [], some msg⟩
  | .ok alreadyAwarded =>
    let toCheck := catalog.filter (fun e => ¬ alreadyAwarded.contains e.name)
    { awarded := toCheck.filterMap (fun e =>
        match runAchievementTask e with
        | .ok true => some e.name
        | _ => none)
      warnings := toCheck.filterMap (fun e =>
        match runAchievementTask e with
        | .error _ => some e.name
        | _ => none)
      engineError := none }

/-- C9: `checkAndAward` never propagates an error to its caller — it is a
total function into `CheckAndAwardResult`: a failing `findMany` is caught
and logged as the engine error with nothing awarded; each individual
check or award failure is logged as a warning, never raised; an
already-held achievement (whether recorded in the fetched set, or racing
into a P2002 unique-constraint violation during create) is a no-op,
awarded at most once and producing no warning. -/
theorem checkAndAward_spec (findExisting : Except String (List String))
    (catalog : List CatalogEntry) :
    (∀ msg, findExisting = .error msg →
      checkAndAward findExisting catalog = ⟨[], [], some msg⟩)
    ∧ (∀ existing, findExisting = .ok existing →
        (checkAndAward findExisting catalog).engineError = none)
    ∧ (∀ existing, findExisting = .ok existing →
        ∀ e ∈ catalog, existing.contains e.name = false →
        ∀ msg, runAchievementTask e = .error msg →
          e.name ∈ (checkAndAward findExisting catalog).warnings)
    ∧ (∀ existing, findExisting = .ok existing →
        ∀ e ∈ catalog, existing.contains e.name = true →
          e.name ∉ (checkAndAward findExisting catalog).awarded)
    ∧ (∀ e : CatalogEntry, e.checkResult = .ok true →
        e.createResult = .error .uniqueViolation →
          runAchievementTask e = .ok false)
    ∧ (∀ existing, findExisting = .ok existing →
        ∀ e ∈ catalog, runAchievementTask e = .ok false →
          e.name ∉ (checkAndAward findExisting catalog).warnings ∨
            (∃ e2 ∈ catalog, e2.name = e.name ∧ e2 ≠ e)) := by
  refine ⟨?_, ?_, ?_, ?_, ?_, ?_⟩
  · rintro msg rfl
    rfl
  · rintro existing rfl
    rfl
  · rintro existing rfl e he hnot msg htask
    simp at hnot
    have hmem : e ∈ catalog.filter
        (fun e => ¬ existing.contains e.name) := by
      simp [List.mem_filter, he, hnot]
    simp only [checkAndAward, List.mem_filterMap]
    exact ⟨e, hmem, by simp [htask]⟩
  · rintro existing rfl e he hin hcontra
    simp at hin
    simp only [checkAndAward, List.mem_filterMap] at hcontra
    obtain ⟨e2, he2, hname⟩ := hcontra
    have := List.mem_filter.mp he2
    rcases htask : runAchievementTask e2 with _ | b
    · simp [htask] at hname
    · cases b
      · simp [htask] at hname
      · simp [htask] at hname
        rw [hname] at this
        simp [hin] at this
  · intro e hcheck hcreate
    simp [runAchievementTask, hcheck, award, hcreate]
  · rintro existing rfl e he htask
    by_cases hdup : ∃ e2 ∈ catalog, e2.name = e.name ∧ e2 ≠ e
    · exact Or.inr hdup
    · refine Or.inl ?_
      intro hmem
      simp only [checkAndAward, List.mem_filterMap] at hmem
      obtain ⟨e2, he2, hname⟩ := hmem
      have he2' := (List.mem_filter.mp he2).1
      rcases heq : runAchievementTask e2 with msg | b
      · simp [heq] at hname
        by_cases h22 : e2 = e
        · rw [h22] at heq
          rw [htask] at heq
          exact Except.noConfusion heq
        · exact hdup ⟨e2, he2', hname, h22⟩
      · cases b
        · simp [heq] at hname
        · simp [heq] at hname

/-- C9 witness: with a fetched set containing "first_win", a catalog in
which "first_win" is already held, "profit_100" races into a P2002
unique violation (no warning, not awarded twice), "broken" fails its
check (logged as a warning), and "first_prediction" is awarded — the
engine returns normally with no propagated error; and a failing
`findMany` is also caught. -/
theorem checkAndAward_spec_witness :
    checkAndAward (.ok ["first_win"])
        [⟨"first_win", .ok true, .ok ()⟩,
         ⟨"profit_100", .ok true, .error .uniqueViolation⟩,
         ⟨"broken", .error "db timeout", .ok ()⟩,
         ⟨"first_prediction", .ok true, .ok ()⟩]
      = ⟨["first_prediction"], ["broken"], none⟩
    ∧ "broken" ∈ (checkAndAward (.ok ["first_win"])
        [⟨"first_win", .ok true, .ok ()⟩,
         ⟨"profit_100", .ok true, .error .uniqueViolation⟩,
         ⟨"broken", .error "db timeout", .ok ()⟩,
         ⟨"first_prediction", .ok true, .ok ()⟩]).warnings
    ∧ runAchievementTask ⟨"profit_100", .ok true, .error .uniqueViolation⟩
      = .ok false
    ∧ checkAndAward (.error "database unavailable")
        [⟨"first_win", .ok true, .ok ()⟩]
      = ⟨[], [], some "database unavailable"⟩ := by
  refine ⟨by decide, ?_, ?_, ?_⟩
  · exact (checkAndAward_spec (.ok ["first_win"])
      [⟨"first_win", .ok true, .ok ()⟩,
       ⟨"profit_100", .ok true, .error .uniqueViolation⟩,
       ⟨"broken", .error "db timeout", .ok ()⟩,
       ⟨"first_prediction", .ok true, .ok ()⟩]).2.2.1
      ["first_win"] rfl ⟨"broken", .error "db timeout", .ok ()⟩
      (by simp) (by decide) "db timeout" rfl
  · exact (checkAndAward_spec (.ok [])
      []).2.2.2.2.1
      ⟨"profit_100", .ok true, .error .uniqueViolation⟩ rfl rfl
  · exact (checkAndAward_spec (.error "database unavailable")
      [⟨"first_win", .ok true, .ok ()⟩]).1 "database unavailable" rfl

/-! ## WalletService.confirmDeposit (C10)

From `backend/src/services/wallet.service.ts`.  The Horizon on-chain
verification (`verifyDepositTx`) is an external call, embedded as an
explicit input; the prisma `transaction` table is a list of records and
the upsert keyed by the found record is embedded observationally (the
matched record replaced in front, unmatched records kept).  The
error-path audit write (`recordTransaction`) mutates state, so
`confirmDeposit` always returns the final state alongside the result. -/

inductive TxStatus where
  | PENDING
  | CONFIRMED
  | FAILED
deriving DecidableEq, Repr

structure TransactionRec where
  userId : String
  txHash : String
  amountUsdc : ℚ
  status : TxStatus
  failedReason : Option String
deriving DecidableEq, Repr

structure WalletUser where
  id : String
  walletAddress : Option String
  usdcBalance : ℚ
deriving DecidableEq, Repr

/-- Result of `verifyDepositTx` (Horizon verification, external). -/
structure VerifyOutcome where
  valid : Bool
  amount : ℚ
  reason : Option String
deriving DecidableEq, Repr

inductive WalletError where
  | invalidTxHash
  | userNotFound
  | walletNotConnected
  | txAlreadyProcessed
  | depositVerificationFailed (reason : Option String)
deriving DecidableEq, Repr

structure WalletState where
  user : Option WalletUser
  transactions : List TransactionRec
deriving DecidableEq, Repr

structure DepositOutcome where
  result : Except WalletError (ℚ × ℚ)
  state : WalletState
deriving Repr

/-- `prisma.transaction.findFirst({ where: { txHash, userId } })`. -/
def findTransaction (txs : List TransactionRec) (txHash userId : String) :
    Option TransactionRec :=
  txs.find? (fun t => t.txHash == txHash && t.userId == userId)

/-- The upsert of the confirm path, keyed by the found record: replaces
the matched (userId, txHash) record with its CONFIRMED update, or
creates a fresh CONFIRMED record; embedded with the resulting record in
front and any other records kept. -/
def upsertConfirmed (txs : List TransactionRec) (txHash userId : String)
    (amount : ℚ) : List TransactionRec :=
  ⟨userId, txHash, amount, .CONFIRMED, none⟩ ::
    txs.filter (fun t => ¬ (t.txHash == txHash && t.userId == userId))

/-- The guard `!txHash || txHash.trim().length === 0`: the hash is
missing or all-whitespace. -/
def isBlank (s : String) : Bool := s.data.all Char.isWhitespace

/-- `WalletService.confirmDeposit`: validates the hash and user, rejects
an already-CONFIRMED (userId, txHash) before the Horizon verification,
re-verifies a PENDING/FAILED record, records a FAILED audit row (amount
0) on failed verification without crediting, and otherwise atomically
upserts the CONFIRMED record and credits the balance, returning
(amountDeposited, newBalance). -/
def confirmDeposit (userId txHash : String) (verification : VerifyOutcome)
    (st : WalletState) : DepositOutcome :=
  if isBlank txHash then ⟨.error .invalidTxHash, st⟩
  else
    match st.user with
    | none => ⟨.error .userNotFound, st⟩
    | some u =>
      match u.walletAddress with
      | none => ⟨.error .walletNotConnected, st⟩
      | some _addr =>
        let existing := findTransaction st.transactions txHash userId
        if _h : ∃ t, existing = some t ∧ t.status = .CONFIRMED then
          ⟨.error .txAlreadyProcessed, st⟩
        else
          if verification.valid = false then
            ⟨.error (.depositVerificationFailed verification.reason),
              ⟨st.user,
                ⟨userId, txHash, 0, .FAILED, verification.reason⟩ ::
                  st.transactions⟩⟩
          else
            ⟨.ok (verification.amount, u.usdcBalance + verification.amount),
              ⟨some { u with
                  usdcBalance := u.usdcBalance + verification.amount },
                upsertConfirmed st.transactions txHash userId
                  verification.amount⟩⟩

/-- C10: `confirmDeposit` credits a user's balance at most once per
(userId, txHash): when a CONFIRMED record with that hash already exists
for the user, the call fails `txAlreadyProcessed` with a result
independent of the verification input (i.e. before any verification)
and with no state mutation; an existing PENDING or FAILED record is
re-verified and may then be confirmed, crediting the balance by exactly
the verified amount; a failed verification records a FAILED audit
transaction of amount 0 and credits nothing; and after one successful
confirmation, any further call for the same (userId, txHash) fails
`txAlreadyProcessed` leaving the credited balance intact. -/
theorem confirmDeposit_spec (userId txHash : String)
    (u : WalletUser) (addr : String) (txs : List TransactionRec)
    (verification : VerifyOutcome)
    (hhash : isBlank txHash = false) (haddr : u.walletAddress = some addr) :
    ((∃ t, findTransaction txs txHash userId = some t ∧
        t.status = .CONFIRMED) →
      (∀ verification2 : VerifyOutcome,
        confirmDeposit userId txHash verification ⟨some u, txs⟩
          = confirmDeposit userId txHash verification2 ⟨some u, txs⟩)
      ∧ confirmDeposit userId txHash verification ⟨some u, txs⟩
          = ⟨.error .txAlreadyProcessed, ⟨some u, txs⟩⟩)
    ∧ (¬ (∃ t, findTransaction txs txHash userId = some t ∧
          t.status = .CONFIRMED) →
        verification.valid = true →
        confirmDeposit userId txHash verification ⟨some u, txs⟩
          = ⟨.ok (verification.amount, u.usdcBalance + verification.amount),
              ⟨some { u with
                  usdcBalance := u.usdcBalance + verification.amount },
                upsertConfirmed txs txHash userId verification.amount⟩⟩)
    ∧ (¬ (∃ t, findTransaction txs txHash userId = some t ∧
          t.status = .CONFIRMED) →
        verification.valid = false →
        confirmDeposit userId txHash verification ⟨some u, txs⟩
          = ⟨.error (.depositVerificationFailed verification.reason),
              ⟨some u,
                ⟨userId, txHash, 0, .FAILED, verification.reason⟩ :: txs⟩⟩)
    ∧ (¬ (∃ t, findTransaction txs txHash userId = some t ∧
          t.status = .CONFIRMED) →
        verification.valid = true →
        ∀ verification2 : VerifyOutcome,
          confirmDeposit userId txHash verification2
              ((confirmDeposit userId txHash verification
                ⟨some u, txs⟩).state)
            = ⟨.error .txAlreadyProcessed,
                (confirmDeposit userId txHash verification
                  ⟨some u, txs⟩).state⟩) := by
  refine ⟨?_, ?_, ?_, ?_⟩
  · intro hconf
    constructor
    · intro verification2
      simp [confirmDeposit, hhash, haddr, hconf]
    · simp [confirmDeposit, hhash, haddr, hconf]
  · intro hnoconf hvalid
    simp [confirmDeposit, hhash, haddr, hnoconf, hvalid]
  · intro hnoconf hinvalid
    simp [confirmDeposit, hhash, haddr, hnoconf, hinvalid]
  · intro hnoconf hvalid verification2
    have hstate : (confirmDeposit userId txHash verification
        ⟨some u, txs⟩).state
        = ⟨some { u with
            usdcBalance := u.usdcBalance + verification.amount },
          upsertConfirmed txs txHash userId verification.amount⟩ := by
      simp [confirmDeposit, hhash, haddr, hnoconf, hvalid]
    rw [hstate]
    have hfind : findTransaction
        (upsertConfirmed txs txHash userId verification.amount)
        txHash userId
        = some ⟨userId, txHash, verification.amount, .CONFIRMED, none⟩ := by
      simp [findTransaction, upsertConfirmed, List.find?_cons]
    have hconf : ∃ t, findTransaction
        (upsertConfirmed txs txHash userId verification.amount)
        txHash userId = some t ∧ t.status = .CONFIRMED :=
      ⟨⟨userId, txHash, verification.amount, .CONFIRMED, none⟩, hfind, rfl⟩
    simp [confirmDeposit, hhash, haddr, hconf]

/-- C10 witness: a user with wallet connected and balance 100 confirming
hash "tx-1" (verified amount 50) is credited to 150 once; the immediate
replay fails `txAlreadyProcessed` and leaves the balance at 150; the same
call against an already-CONFIRMED record fails identically for two
different verification inputs; and a failed verification (reason given)
credits nothing and stores a FAILED audit row. -/
theorem confirmDeposit_spec_witness :
    (confirmDeposit "user-1" "tx-1" ⟨true, 50, none⟩
        ⟨some ⟨"user-1", some "GADDR", 100⟩, []⟩).result = .ok (50, 150)
    ∧ (confirmDeposit "user-1" "tx-1" ⟨true, 999, none⟩
        ((confirmDeposit "user-1" "tx-1" ⟨true, 50, none⟩
          ⟨some ⟨"user-1", some "GADDR", 100⟩, []⟩).state))
      = ⟨.error .txAlreadyProcessed,
          (confirmDeposit "user-1" "tx-1" ⟨true, 50, none⟩
            ⟨some ⟨"user-1", some "GADDR", 100⟩, []⟩).state⟩
    ∧ confirmDeposit "user-1" "tx-2" ⟨false, 0, some "Memo mismatch"⟩
        ⟨some ⟨"user-1", some "GADDR", 100⟩, []⟩
      = ⟨.error (.depositVerificationFailed (some "Memo mismatch")),
          ⟨some ⟨"user-1", some "GADDR", 100⟩,
            [⟨"user-1", "tx-2", 0, .FAILED, some "Memo mismatch"⟩]⟩⟩ := by
  have hno : ¬ (∃ t, findTransaction ([] : List TransactionRec)
      "tx-1" "user-1" = some t ∧ t.status = .CONFIRMED) := by
    simp [findTransaction]
  have h := confirmDeposit_spec "user-1" "tx-1"
    ⟨"user-1", some "GADDR", 100⟩ "GADDR" [] ⟨true, 50, none⟩
    (by decide) rfl
  refine ⟨?_, ?_, ?_⟩
  · rw [h.2.1 hno rfl]
    norm_num
  · exact h.2.2.2 hno rfl ⟨true, 999, none⟩
  · have h2 := confirmDeposit_spec "user-1" "tx-2"
      ⟨"user-1", some "GADDR", 100⟩ "GADDR" []
      ⟨false, 0, some "Memo mismatch"⟩ (by decide) rfl
    exact h2.2.2.1 (by simp [findTransaction]) rfl

end BoxMeOut
